import Mathlib

/-!
Verification development for the structured-cli-notes repository.

The development shallowly embeds the config resolution and persistence
logic of `config.py` and the ticker lookup logic of `yf_api.py`.

Modelling conventions:
* A filesystem path is modelled by its normalised absolute string form
  (the string produced by `str(Path(x))`); `Path.absolute()` is therefore
  the identity on this representation, and directory structure is not
  modelled (directory creation always succeeds in the code paths at issue).
* A filesystem is a partial map from paths to file entries.  A file entry
  records how the Python io layer behaves on it: opening or reading it may
  raise `IOError`, decoding its bytes in text mode may raise
  `UnicodeDecodeError`, and otherwise it yields a text payload together
  with the outcome that `json.load` has on that payload (`none` meaning
  `json.JSONDecodeError`).  Carrying the parse outcome as data quantifies
  over every possible behaviour of the external `json` parser.
* Python `str.strip` is modelled by `pyStrip` (the claims at issue only
  involve ASCII whitespace) and `str.upper` by `pyUpper`.
* Writes performed by the code always succeed (the spec scopes failure
  handling to read and parse failures).
-/

/-- Python `str.strip()` on the underlying character list: drop whitespace
from both ends (the claims at issue only involve ASCII whitespace). -/
def pyStrip (s : String) : String :=
  ⟨((s.data.dropWhile Char.isWhitespace).reverse.dropWhile
      Char.isWhitespace).reverse⟩

/-- Python `str.upper()` on the underlying character list (ASCII). -/
def pyUpper (s : String) : String :=
  ⟨s.data.map Char.toUpper⟩

/-- A JSON value as produced by the Python `json` module; numbers are
restricted to integers, which is all this repository ever stores. -/
inductive Json where
  | null : Json
  | bool (b : Bool) : Json
  | num (n : Int) : Json
  | str (s : String) : Json
  | arr (elems : List Json) : Json
  | obj (fields : List (String × Json)) : Json

/-- Whether a JSON value is an object holding key `k` (Python `k in d`). -/
def Json.hasKey (j : Json) (k : String) : Bool :=
  match j with
  | .obj fields => fields.any (fun kv => kv.1 == k)
  | _ => false

/-- A file entry: how the io layer behaves on an existing file. -/
inductive Entry where
  | unreadable : Entry
  | undecodable : Entry
  | doc (raw : String) (json : Option Json) : Entry

/-- A filesystem state: a partial map from absolute path strings to
entries; `none` means the path does not exist. -/
structure FS where
  file : String → Option Entry

/-- Python `Path.exists()`: the path maps to an entry. -/
def FS.pexists (fs : FS) (p : String) : Bool :=
  (fs.file p).isSome

/-- Outcome of `open(p, "r")` followed by `f.read()`. -/
inductive ReadTextResult where
  | ok (s : String) : ReadTextResult
  | fileNotFound : ReadTextResult
  | ioError : ReadTextResult
  | unicodeError : ReadTextResult
deriving DecidableEq

/-- Outcome of `open(p, "r")` followed by `json.load(f)`. -/
inductive ReadJsonResult where
  | ok (j : Json) : ReadJsonResult
  | fileNotFound : ReadJsonResult
  | ioError : ReadJsonResult
  | unicodeError : ReadJsonResult
  | jsonDecodeError : ReadJsonResult

/-- Reading a file as text: a missing path raises `FileNotFoundError`, an
unreadable entry raises `IOError`, undecodable bytes raise
`UnicodeDecodeError`, otherwise the text payload is returned. -/
def FS.readText (fs : FS) (p : String) : ReadTextResult :=
  match fs.file p with
  | none => .fileNotFound
  | some .unreadable => .ioError
  | some .undecodable => .unicodeError
  | some (.doc s _) => .ok s

/-- Reading a file as JSON (`open` + `json.load`). -/
def FS.readJson (fs : FS) (p : String) : ReadJsonResult :=
  match fs.file p with
  | none => .fileNotFound
  | some .unreadable => .ioError
  | some .undecodable => .unicodeError
  | some (.doc _ none) => .jsonDecodeError
  | some (.doc _ (some j)) => .ok j

/-- Overwriting (or creating) the file at `p` with entry `e`. -/
def FS.write (fs : FS) (p : String) (e : Entry) : FS :=
  ⟨fun q => if q = p then some e else fs.file q⟩

/- Path constants from `config.py` lines 11-15, with `Path.home()` fixed to
a representative home directory. -/

/-- Constant `CONFIG_DIR = Path.home() / ".config" / "notes-app"`. -/
def CONFIG_DIR : String := "/home/user/.config/notes-app"

/-- Constant `LAST_CONFIG_FILE = CONFIG_DIR / ".last_config"`. -/
def LAST_CONFIG_FILE : String := CONFIG_DIR ++ "/.last_config"

/-- Constant `DEFAULT_DATA_FILE = CONFIG_DIR / "scn_data.json"`. -/
def DEFAULT_DATA_FILE : String := CONFIG_DIR ++ "/scn_data.json"

/-- The synthesized default contents `{"tickers": []}`. -/
def defaultContents : Json := .obj [("tickers", .arr [])]

/-- The exact text `json.dump({"tickers": []}, f, indent=2)` writes — the
only JSON payload this program ever serialises. -/
def DEFAULT_FILE_TEXT : String := "\x7b\n  \"tickers\": []\n\x7d"

/-- A `Config` (config.py lines 18-23): the path loaded and the parsed
JSON contents. -/
structure Config where
  config_path : String
  contents : Json

/-- The only exception `load_last_config` can leak: `f.read()` or
`json.load(f)` raising `UnicodeDecodeError` (a `ValueError`, which the
`except (FileNotFoundError, IOError, json.JSONDecodeError)` clauses do not
catch). -/
inductive PyErr where
  | unicodeDecodeError : PyErr
deriving DecidableEq

/-- Embedding of `save_last_config` (config.py lines 26-30): writes the absolute string
of `file_path` as plain text into `LAST_CONFIG_FILE` (parent directory
creation always succeeds and is not modelled).  The stored json outcome is
`none`: the payload is only ever parsed as JSON when it names
`LAST_CONFIG_FILE` itself, and such a string starts with "/" and is
therefore never valid JSON. -/
def save_last_config (fs : FS) (file_path : String) : FS :=
  fs.write LAST_CONFIG_FILE (.doc file_path none)

/-- Target-path selection, config.py lines 36-55: start from
`DEFAULT_DATA_FILE`; if `LAST_CONFIG_FILE` exists, read it inside
`try ... except (FileNotFoundError, IOError)`, strip the text, and if the
named path exists make it the target.  A `UnicodeDecodeError` from
`f.read()` is not caught and escapes. -/
def select_target (fs : FS) : Except PyErr String :=
  if fs.pexists LAST_CONFIG_FILE then
    match fs.readText LAST_CONFIG_FILE with
    | .ok s =>
        let last_config_path := pyStrip s
        if fs.pexists last_config_path then
          .ok last_config_path
        else
          .ok DEFAULT_DATA_FILE
    | .fileNotFound => .ok DEFAULT_DATA_FILE
    | .ioError => .ok DEFAULT_DATA_FILE
    | .unicodeError => .error .unicodeDecodeError
  else
    .ok DEFAULT_DATA_FILE

/-- Writing the synthesized defaults to `DEFAULT_DATA_FILE`
(`json.dump(default_contents, f, indent=2)`). -/
def writeDefaultFile (fs : FS) : FS :=
  fs.write DEFAULT_DATA_FILE (.doc DEFAULT_FILE_TEXT (some defaultContents))

/-- The except-branch of `load_last_config` (config.py lines 61-84),
entered on a caught failure of the target read: if the target is the
default path, synthesize `{"tickers": []}`, write it to the default path
and return it; otherwise retry the default path once, synthesizing and
writing fresh defaults if that read also fails with a caught exception.
`UnicodeDecodeError` from the retry escapes. -/
def load_fallback (fs : FS) (config_file_to_load : String) :
    Except PyErr (Config × FS) :=
  if config_file_to_load = DEFAULT_DATA_FILE then
    .ok (⟨DEFAULT_DATA_FILE, defaultContents⟩, writeDefaultFile fs)
  else
    match fs.readJson DEFAULT_DATA_FILE with
    | .ok contents => .ok (⟨DEFAULT_DATA_FILE, contents⟩, fs)
    | .unicodeError => .error .unicodeDecodeError
    | _ => .ok (⟨DEFAULT_DATA_FILE, defaultContents⟩, writeDefaultFile fs)

/-- Embedding of `load_last_config` (config.py lines 33-84): select the target path,
then `json.load` it inside
`try ... except (FileNotFoundError, IOError, json.JSONDecodeError)`;
a caught failure enters `load_fallback`, while `UnicodeDecodeError`
escapes. -/
def load_last_config (fs : FS) : Except PyErr (Config × FS) :=
  match select_target fs with
  | .error e => .error e
  | .ok config_file_to_load =>
    match fs.readJson config_file_to_load with
    | .ok contents =>
        .ok (⟨config_file_to_load, contents⟩, fs)
    | .unicodeError => .error .unicodeDecodeError
    | _ => load_fallback fs config_file_to_load

/-- Embedding of `create_default_config_if_not_exists` (config.py lines 87-92). -/
def create_default_config_if_not_exists (fs : FS) : FS :=
  if fs.pexists DEFAULT_DATA_FILE then fs else writeDefaultFile fs

/-- The `Market` enum values in definition order (yf_api.py lines 8-13):
Python iterates an `Enum` in definition order, so the suffixes are tried
as `STO, USA, ITA, FRA`. -/
def marketSuffixes : List String := [".ST", "", ".MI", ".PA"]

/-- Outcome of one remote lookup
`yf.Ticker(sym).info.get("longName", None)`: either a client-side
`ValueError` (invalid symbol shape), or a result whose longName field is
`n` (with `none` when the field is absent or null). -/
inductive LookupOutcome where
  | err : LookupOutcome
  | name (n : Option String) : LookupOutcome

/-- The symbols attempted in order: `ticker.upper() + market.value`
(yf_api.py line 17). -/
def marketSymbols (ticker : String) : List String :=
  marketSuffixes.map (fun suffix => pyUpper ticker ++ suffix)

/-- The loop of `get_company_name_from_ticker` over the remaining extended
symbols, instrumented with the trace of attempted symbols (the code prints
each one before its lookup).  A lookup yielding a non-None name returns
immediately; a `ValueError` (`continue`) or a `None` name moves on. -/
def tryMarkets (lookup : String → LookupOutcome) :
    List String → List String × Option String
  | [] => ([], none)
  | sym :: rest =>
    match lookup sym with
    | .name (some n) => ([sym], some n)
    | .name none =>
        let r := tryMarkets lookup rest
        (sym :: r.1, r.2)
    | .err =>
        let r := tryMarkets lookup rest
        (sym :: r.1, r.2)

/-- Embedding of `get_company_name_from_ticker` (yf_api.py lines 15-27), with the
remote lookup passed as an oracle.  The first component is the list of
symbols attempted (one per diagnostic print), the second the returned
name (`none` models returning `None` after the loop). -/
def get_company_name_from_ticker (lookup : String → LookupOutcome)
    (ticker : String) : List String × Option String :=
  tryMarkets lookup (marketSymbols ticker)

/-- The result dict of `get_historical_returns`, keys `one_month` and
`ytd`. -/
structure HistReturns where
  one_month : Option ℚ
  ytd : Option ℚ
deriving DecidableEq

/-- Embedding of `get_historical_returns` (yf_api.py lines 35-64), with the two
close-price series returned by `stock.history` passed as inputs (floats
modelled as rationals).  Each return is filled in only when the series is
non-empty and has more than one row; `iloc[0]` is the head and `iloc[-1]`
the last element. -/
def get_historical_returns (ytd_data one_month_data : List ℚ) : HistReturns :=
  let ytdRet : Option ℚ :=
    if ¬ ytd_data.isEmpty ∧ ytd_data.length > 1 then
      some ((ytd_data.getLast! - ytd_data.head!) / ytd_data.head!)
    else none
  let oneMonthRet : Option ℚ :=
    if ¬ one_month_data.isEmpty ∧ one_month_data.length > 1 then
      some ((one_month_data.getLast! - one_month_data.head!) /
        one_month_data.head!)
    else none
  ⟨oneMonthRet, ytdRet⟩

/- Spec-side definitions, written from the specification text, to be
compared with the embeddings above. -/

/-- Spec-side target selection: if the LastUsedPointer file exists, is
readable, and contains a path that exists on disk, that path is used; in
every other case the default path is used. -/
def spec_target (fs : FS) : String :=
  match fs.readText LAST_CONFIG_FILE with
  | .ok s => if fs.pexists (pyStrip s) then pyStrip s else DEFAULT_DATA_FILE
  | _ => DEFAULT_DATA_FILE

/-- Spec-side hit test: the lookup succeeded and yielded a present
(non-null) company name. -/
def isHit (o : LookupOutcome) : Bool :=
  match o with
  | .name (some _) => true
  | _ => false

/-- Spec-side company-name resolution: the name from the first symbol
whose lookup yields a present name. -/
def firstFoundName (lookup : String → LookupOutcome)
    (syms : List String) : Option String :=
  syms.findSome?
    (fun sym => match lookup sym with | .name (some n) => some n | _ => none)

/-- Builds a finite filesystem from an association list of entries. -/
def fsOf (entries : List (String × Entry)) : FS :=
  ⟨fun p => (entries.find? (fun kv => kv.1 == p)).map (fun kv => kv.2)⟩

/- Concrete filesystem states and lookup oracles used to evaluate the
embedded operations at specific inputs. -/

/-- No pointer file; the default data file parses to the empty JSON
object, which has no `tickers` key. -/
def fsNoTickersKey : FS :=
  fsOf [(DEFAULT_DATA_FILE, .doc "\x7b\x7d" (some (.obj [])))]

/-- No pointer file; the default data file parses to an empty JSON
array. -/
def fsArrDefault : FS :=
  fsOf [(DEFAULT_DATA_FILE, .doc "[]" (some (.arr [])))]

/-- The pointer file holds bytes that are not decodable as text; the
default data file is a freshly written default. -/
def fsBadBytesPointer : FS :=
  fsOf [(LAST_CONFIG_FILE, .undecodable),
        (DEFAULT_DATA_FILE, .doc DEFAULT_FILE_TEXT (some defaultContents))]

/-- The pointer file holds bytes that are not decodable as text; the
default data file parses to an empty JSON array. -/
def fsBadBytesPointer2 : FS :=
  fsOf [(LAST_CONFIG_FILE, .undecodable),
        (DEFAULT_DATA_FILE, .doc "[]" (some (.arr [])))]

/-- The pointer file holds bytes that are not decodable as text; no other
file exists. -/
def fsBadBytesPointerOnly : FS :=
  fsOf [(LAST_CONFIG_FILE, .undecodable)]

/-- The pointer names an existing custom file with invalid JSON, and the
default data file holds bytes that are not decodable as text. -/
def fsCustomBadDefaultBinary : FS :=
  fsOf [(LAST_CONFIG_FILE, .doc "/custom.json" none),
        ("/custom.json", .doc "oops" none),
        (DEFAULT_DATA_FILE, .undecodable)]

/-- The pointer names an existing custom file with invalid JSON, and the
default data file parses to the array `[2]`. -/
def fsCustomBadDefaultOk : FS :=
  fsOf [(LAST_CONFIG_FILE, .doc "/c3.json" none),
        ("/c3.json", .doc "bad" none),
        (DEFAULT_DATA_FILE, .doc "[2]" (some (.arr [.num 2])))]

/-- The pointer names (after stripping) an existing custom file that
parses to an empty JSON array. -/
def fsPointerPadded : FS :=
  fsOf [(LAST_CONFIG_FILE, .doc " /w5.json " none),
        ("/w5.json", .doc "[]" (some (.arr [])))]

/-- A file whose path ends in a space exists with valid JSON, its
space-free sibling does not exist, and the default file has its own
distinct contents. -/
def fsTrailingSpace : FS :=
  fsOf [("/a ", .doc "[1]" (some (.arr [.num 1]))),
        (DEFAULT_DATA_FILE,
          .doc "\x7b\"tickers\": [\"D\"]\x7d"
            (some (.obj [("tickers", .arr [.str "D"])])))]

/-- A single data file with valid JSON contents, no pointer file. -/
def fsRoundTrip : FS :=
  fsOf [("/w8.json", .doc "[]" (some (.arr [])))]

/-- The default data file exists with contents that are not shaped like a
default config (a bare JSON string). -/
def fsWeirdDefault : FS :=
  fsOf [(DEFAULT_DATA_FILE, .doc "\"weird\"" (some (.str "weird")))]

/-- A lookup oracle: the Stockholm symbol resolves to an empty-string
name, the bare symbol to a non-empty name, everything else to no name. -/
def lookupEmptyThenApple : String → LookupOutcome :=
  fun sym =>
    if sym = "A.ST" then .name (some "")
    else if sym = "A" then .name (some "Apple Inc.") else .name none

/-- A lookup oracle on which no symbol ever yields a name. -/
def lookupNever : String → LookupOutcome :=
  fun _ => .name none

lemma readJson_ok_pexists {fs : FS} {p : String} {j : Json}
    (h : fs.readJson p = .ok j) : fs.pexists p = true := by
  unfold FS.readJson at h
  unfold FS.pexists
  cases hf : fs.file p
  · rw [hf] at h
    simp at h
  · simp [hf]

lemma pexists_writeDefault (fs : FS) :
    (writeDefaultFile fs).pexists DEFAULT_DATA_FILE = true := by
  simp [writeDefaultFile, FS.write, FS.pexists]

lemma load_fallback_ok {fs : FS} {t : String} {cfg : Config} {fs2 : FS}
    (h : load_fallback fs t = .ok (cfg, fs2)) :
    fs2.pexists cfg.config_path = true ∧
      (cfg.contents = defaultContents ∨
        fs.readJson cfg.config_path = .ok cfg.contents) := by
  unfold load_fallback at h
  split at h
  · simp only [Except.ok.injEq, Prod.mk.injEq] at h
    obtain ⟨hc, hfs⟩ := h
    subst hc
    subst hfs
    exact ⟨pexists_writeDefault fs, Or.inl rfl⟩
  · split at h
    · rename_i contents heq
      simp only [Except.ok.injEq, Prod.mk.injEq] at h
      obtain ⟨hc, hfs⟩ := h
      subst hc
      subst hfs
      exact ⟨readJson_ok_pexists heq, Or.inr heq⟩
    · simp at h
    · simp only [Except.ok.injEq, Prod.mk.injEq] at h
      obtain ⟨hc, hfs⟩ := h
      subst hc
      subst hfs
      exact ⟨pexists_writeDefault fs, Or.inl rfl⟩

/-- C1 (amended): after `load_last_config` returns, the returned path
names a file that exists on disk in the post-call state, and the contents
are either the synthesized default `{"tickers": []}` — which carries a
`tickers` key — or exactly the parsed JSON of the loaded file; a
successfully parsed file without a `tickers` key is returned as-is. -/
theorem C1_amended (fs : FS) (cfg : Config) (fs2 : FS)
    (h : load_last_config fs = .ok (cfg, fs2)) :
    fs2.pexists cfg.config_path = true ∧
      (cfg.contents = defaultContents ∨
        fs.readJson cfg.config_path = .ok cfg.contents) ∧
      defaultContents.hasKey "tickers" = true := by
  unfold load_last_config at h
  cases hsel : select_target fs with
  | error e =>
    rw [hsel] at h
    simp at h
  | ok t =>
    rw [hsel] at h
    dsimp only at h
    cases hr : fs.readJson t <;> rw [hr] at h
    case ok j =>
      simp only [Except.ok.injEq, Prod.mk.injEq] at h
      obtain ⟨hc, hfs⟩ := h
      subst hc
      subst hfs
      exact ⟨readJson_ok_pexists hr, Or.inr hr, rfl⟩
    case unicodeError => simp at h
    case fileNotFound =>
      obtain ⟨h1, h2⟩ := load_fallback_ok h
      exact ⟨h1, h2, rfl⟩
    case ioError =>
      obtain ⟨h1, h2⟩ := load_fallback_ok h
      exact ⟨h1, h2, rfl⟩
    case jsonDecodeError =>
      obtain ⟨h1, h2⟩ := load_fallback_ok h
      exact ⟨h1, h2, rfl⟩

/-- C1 counterexample: with no pointer file and a default data file whose
contents parse to the empty JSON object, `load_last_config` returns those
contents unchanged, and they do not contain a `tickers` key. -/
theorem C1_counterexample :
    load_last_config fsNoTickersKey =
      .ok (⟨DEFAULT_DATA_FILE, .obj []⟩, fsNoTickersKey) ∧
      Json.hasKey (.obj []) "tickers" = false :=
  ⟨rfl, rfl⟩

/-- C1 witness: a concrete run of `load_last_config` on a filesystem whose
default file parses to an empty JSON array, instantiating `C1_amended`. -/
theorem C1_witness :
    load_last_config fsArrDefault =
      .ok (⟨DEFAULT_DATA_FILE, .arr []⟩, fsArrDefault) ∧
      (fsArrDefault.pexists DEFAULT_DATA_FILE = true ∧
        ((Json.arr [] : Json) = defaultContents ∨
          fsArrDefault.readJson DEFAULT_DATA_FILE = .ok (.arr [])) ∧
        defaultContents.hasKey "tickers" = true) :=
  ⟨rfl, C1_amended fsArrDefault ⟨DEFAULT_DATA_FILE, .arr []⟩ fsArrDefault rfl⟩

/-- C2 (code bug): on a filesystem whose pointer file holds bytes that are
not decodable as text, `load_last_config` raises a `UnicodeDecodeError`
to its caller instead of treating the read failure as a fallback — only
`FileNotFoundError` and `IOError` are caught around the pointer read. -/
theorem C2_bug :
    load_last_config fsBadBytesPointer = .error .unicodeDecodeError := rfl

/-- C4 (code bug): with a pointer file holding binary garbage that is not
decodable as text and a perfectly fine default data file,
`load_last_config` raises instead of falling back to the default file. -/
theorem C4_bug :
    load_last_config fsBadBytesPointer2 = .error .unicodeDecodeError := rfl

lemma readText_ok_pexists {fs : FS} {p : String} {s : String}
    (h : fs.readText p = .ok s) : fs.pexists p = true := by
  unfold FS.readText at h
  unfold FS.pexists
  cases hf : fs.file p
  · rw [hf] at h
    simp at h
  · simp [hf]

lemma readText_of_not_pexists {fs : FS} {p : String}
    (h : fs.pexists p = false) : fs.readText p = .fileNotFound := by
  unfold FS.pexists at h
  unfold FS.readText
  cases hf : fs.file p
  · rfl
  · rw [hf] at h
    simp at h

/-- C5 counterexample: when the pointer file exists but holds bytes that
are not decodable as text, target selection raises instead of selecting
the default path. -/
theorem C5_counterexample :
    select_target fsBadBytesPointerOnly = .error .unicodeDecodeError ∧
      select_target fsBadBytesPointerOnly ≠ .ok DEFAULT_DATA_FILE :=
  ⟨rfl, fun hco => Except.noConfusion hco⟩

/-- C5 (amended): whenever reading the pointer file does not raise a
`UnicodeDecodeError`, the target path is selected exactly as the spec
says: a readable pointer naming an existing path (after stripping) wins,
and every other case selects the default path.  When the pointer bytes
are not decodable as text, no target is selected and the error
escapes. -/
theorem C5_amended (fs : FS)
    (h : fs.readText LAST_CONFIG_FILE ≠ .unicodeError) :
    select_target fs = .ok (spec_target fs) := by
  by_cases he : fs.pexists LAST_CONFIG_FILE
  · unfold select_target spec_target
    cases ht : fs.readText LAST_CONFIG_FILE with
    | ok s =>
      rw [if_pos he]
      dsimp only
      by_cases hp : fs.pexists (pyStrip s) <;> simp [hp]
    | fileNotFound => rw [if_pos he]
    | ioError => rw [if_pos he]
    | unicodeError => exact absurd ht h
  · have he2 : fs.pexists LAST_CONFIG_FILE = false := by
      simpa using he
    unfold select_target spec_target
    rw [readText_of_not_pexists he2, if_neg he]

/-- C5 witness: a concrete run of target selection on a pointer whose text
is padded with whitespace and names an existing file, instantiating
`C5_amended`. -/
theorem C5_witness :
    fsPointerPadded.readText LAST_CONFIG_FILE ≠ .unicodeError ∧
      select_target fsPointerPadded = .ok (spec_target fsPointerPadded) :=
  ⟨by decide, C5_amended fsPointerPadded (by decide)⟩

/-- C3 counterexample: the pointer names an existing custom file whose
JSON parse fails, and the default data file is corrupt in the sense of
holding undecodable bytes; instead of synthesizing and returning fresh
defaults, `load_last_config` raises. -/
theorem C3_counterexample :
    select_target fsCustomBadDefaultBinary = .ok "/custom.json" ∧
      fsCustomBadDefaultBinary.readJson "/custom.json" = .jsonDecodeError ∧
      load_last_config fsCustomBadDefaultBinary =
        .error .unicodeDecodeError :=
  ⟨rfl, rfl, rfl⟩

/-- C3 (amended): when the JSON parse of the selected target fails: if the
target is the default path, `{"tickers": []}` is synthesized, written to
the default path and returned; otherwise the default path is retried
exactly once — a successful parse of the default is returned, a missing,
unreadable or JSON-invalid default is replaced by synthesized fresh
defaults which are written and returned, and a default whose bytes are
not decodable as text makes the error escape instead. -/
theorem C3_amended (fs : FS) (t : String)
    (hsel : select_target fs = .ok t)
    (hfail : fs.readJson t = .jsonDecodeError) :
    load_last_config fs =
      if t = DEFAULT_DATA_FILE then
        .ok (⟨DEFAULT_DATA_FILE, defaultContents⟩, writeDefaultFile fs)
      else
        match fs.readJson DEFAULT_DATA_FILE with
        | .ok contents => .ok (⟨DEFAULT_DATA_FILE, contents⟩, fs)
        | .unicodeError => .error .unicodeDecodeError
        | _ => .ok (⟨DEFAULT_DATA_FILE, defaultContents⟩, writeDefaultFile fs) := by
  unfold load_last_config
  rw [hsel]
  dsimp only
  rw [hfail]
  dsimp only
  rfl

/-- C3 witness: a concrete run in which the pointer names an existing
custom file with invalid JSON and the default parses to `[2]`,
instantiating `C3_amended`: the contents of the default are returned. -/
theorem C3_witness :
    select_target fsCustomBadDefaultOk = .ok "/c3.json" ∧
      fsCustomBadDefaultOk.readJson "/c3.json" = .jsonDecodeError ∧
      load_last_config fsCustomBadDefaultOk =
        .ok (⟨DEFAULT_DATA_FILE, .arr [.num 2]⟩, fsCustomBadDefaultOk) :=
  ⟨rfl, rfl, C3_amended fsCustomBadDefaultOk "/c3.json" rfl rfl⟩

/-- C8 counterexample: the path "/a " (with a trailing space) exists and
parses after saving it as the pointer, yet a subsequent load resolves to
the default data file and returns its contents, because the load strips
the saved text before resolving it. -/
theorem C8_counterexample :
    load_last_config (save_last_config fsTrailingSpace "/a ") =
      .ok (⟨DEFAULT_DATA_FILE, .obj [("tickers", .arr [.str "D"])]⟩,
        save_last_config fsTrailingSpace "/a ") ∧
      (save_last_config fsTrailingSpace "/a ").readJson "/a " =
        .ok (.arr [.num 1]) ∧
      DEFAULT_DATA_FILE ≠ "/a " :=
  ⟨rfl, rfl, by decide⟩

/-- C8 (amended): for every path whose absolute string is unchanged by
whitespace stripping, after `save_last_config` writes it a subsequent
`load_last_config` resolves to and loads that same file, provided the
file exists and parses in the post-save state. -/
theorem C8_amended (fs : FS) (p : String) (j : Json)
    (htrim : pyStrip p = p)
    (hread : (save_last_config fs p).readJson p = .ok j) :
    load_last_config (save_last_config fs p) =
      .ok (⟨p, j⟩, save_last_config fs p) := by
  have hex : (save_last_config fs p).pexists p = true :=
    readJson_ok_pexists hread
  have hptr : (save_last_config fs p).readText LAST_CONFIG_FILE = .ok p := by
    simp [save_last_config, FS.write, FS.readText]
  have hpe : (save_last_config fs p).pexists LAST_CONFIG_FILE = true :=
    readText_ok_pexists hptr
  have hsel : select_target (save_last_config fs p) = .ok p := by
    unfold select_target
    rw [if_pos hpe, hptr]
    dsimp only
    rw [htrim, if_pos hex]
  unfold load_last_config
  rw [hsel]
  dsimp only
  rw [hread]

/-- C8 witness: a concrete save of "/w8.json" followed by a load that
resolves back to it, instantiating `C8_amended`. -/
theorem C8_witness :
    pyStrip "/w8.json" = "/w8.json" ∧
      (save_last_config fsRoundTrip "/w8.json").readJson "/w8.json" =
        .ok (.arr []) ∧
      load_last_config (save_last_config fsRoundTrip "/w8.json") =
        .ok (⟨"/w8.json", .arr []⟩, save_last_config fsRoundTrip "/w8.json") :=
  ⟨rfl, rfl, C8_amended fsRoundTrip "/w8.json" (.arr []) rfl rfl⟩

/-- C9: the operation `create_default_config_if_not_exists` is idempotent, and when the
default data file already exists — whatever its contents — the call
leaves the filesystem, and hence the contents of that file, unchanged. -/
theorem C9_idempotent (fs : FS) :
    create_default_config_if_not_exists
        (create_default_config_if_not_exists fs) =
      create_default_config_if_not_exists fs ∧
      (fs.pexists DEFAULT_DATA_FILE = true →
        create_default_config_if_not_exists fs = fs) := by
  have hkey : ∀ g : FS, g.pexists DEFAULT_DATA_FILE = true →
      create_default_config_if_not_exists g = g := by
    intro g hg
    unfold create_default_config_if_not_exists
    rw [if_pos hg]
  constructor
  · by_cases he : fs.pexists DEFAULT_DATA_FILE
    · rw [hkey fs he]
      exact hkey fs he
    · have h1 : create_default_config_if_not_exists fs = writeDefaultFile fs := by
        unfold create_default_config_if_not_exists
        rw [if_neg he]
      rw [h1, hkey _ (pexists_writeDefault fs)]
  · exact fun he => hkey fs he

/-- C9 witness: calling `create_default_config_if_not_exists` twice on a
filesystem whose default file holds non-default-shaped contents changes
nothing, instantiating `C9_idempotent`. -/
theorem C9_witness :
    create_default_config_if_not_exists
        (create_default_config_if_not_exists fsWeirdDefault) =
      create_default_config_if_not_exists fsWeirdDefault ∧
      create_default_config_if_not_exists fsWeirdDefault = fsWeirdDefault :=
  ⟨(C9_idempotent fsWeirdDefault).1, (C9_idempotent fsWeirdDefault).2 rfl⟩

lemma series_cond (l : List ℚ) : (¬ l.isEmpty ∧ l.length > 1) ↔ 2 ≤ l.length := by
  cases l with
  | nil => simp
  | cons a rest =>
    simp only [List.isEmpty_cons, List.length_cons]
    constructor
    · intro h
      omega
    · intro h
      exact ⟨by simp, by omega⟩

/-- C7: the return of each period is absent when its close series has fewer
than 2 data points (empty or singleton), and otherwise equals the simple
fractional return (last close - first close) / first close; in
particular the two-point series [100, 110] yields 1/10 = 0.10 for both
periods. -/
theorem C7_returns (ytd_data one_month_data : List ℚ) :
    (get_historical_returns ytd_data one_month_data).ytd =
      (if ytd_data.length < 2 then none
       else some ((ytd_data.getLast! - ytd_data.head!) / ytd_data.head!)) ∧
    (get_historical_returns ytd_data one_month_data).one_month =
      (if one_month_data.length < 2 then none
       else some ((one_month_data.getLast! - one_month_data.head!) /
         one_month_data.head!)) ∧
    get_historical_returns [100, 110] [100, 110] =
      ⟨some (1/10), some (1/10)⟩ := by
  refine ⟨?_, ?_, ?_⟩
  · unfold get_historical_returns
    dsimp only
    by_cases h : 2 ≤ ytd_data.length
    · rw [if_pos ((series_cond ytd_data).mpr h), if_neg (by omega)]
    · rw [if_neg (fun hc => h ((series_cond ytd_data).mp hc)),
        if_pos (by omega)]
  · unfold get_historical_returns
    dsimp only
    by_cases h : 2 ≤ one_month_data.length
    · rw [if_pos ((series_cond one_month_data).mpr h), if_neg (by omega)]
    · rw [if_neg (fun hc => h ((series_cond one_month_data).mp hc)),
        if_pos (by omega)]
  · show HistReturns.mk (some (((110 : ℚ) - 100) / 100))
        (some (((110 : ℚ) - 100) / 100)) = ⟨some (1/10), some (1/10)⟩
    norm_num

lemma tryMarkets_spec (lookup : String → LookupOutcome)
    (syms : List String) :
    tryMarkets lookup syms =
      (syms.takeWhile (fun sym => !isHit (lookup sym)) ++
        (syms.dropWhile (fun sym => !isHit (lookup sym))).take 1,
       firstFoundName lookup syms) := by
  induction syms with
  | nil => rfl
  | cons sym rest ih =>
    cases hl : lookup sym with
    | err =>
      have hhit : isHit LookupOutcome.err = false := rfl
      simp only [tryMarkets, hl, firstFoundName, List.findSome?_cons,
        List.takeWhile_cons, List.dropWhile_cons, hhit, Bool.not_false]
      simp only [firstFoundName] at ih
      simp [ih]
    | name n =>
      cases n with
      | none =>
        have hhit : isHit (LookupOutcome.name none) = false := rfl
        simp only [tryMarkets, hl, firstFoundName, List.findSome?_cons,
          List.takeWhile_cons, List.dropWhile_cons, hhit, Bool.not_false]
        simp only [firstFoundName] at ih
        simp [ih]
      | some nm =>
        have hhit : isHit (LookupOutcome.name (some nm)) = true := rfl
        simp only [tryMarkets, hl, firstFoundName, List.findSome?_cons,
          List.takeWhile_cons, List.dropWhile_cons, hhit, Bool.not_true]
        simp

/-- C6 counterexample: with outcomes (empty-string name, "Apple Inc.",
no name, no name) across the four suffixes, the code returns the empty
string after a single attempt — it short-circuits on any non-None name —
rather than continuing to the first non-empty name. -/
theorem C6_counterexample :
    get_company_name_from_ticker lookupEmptyThenApple "a" =
      (["A.ST"], some "") ∧
      lookupEmptyThenApple "A" = .name (some "Apple Inc.") ∧
      some "" ≠ some "Apple Inc." :=
  ⟨rfl, rfl, by decide⟩

/-- C6 (amended): the function `get_company_name_from_ticker` upper-cases the ticker,
iterates the market-suffix table in its fixed order, treats a client-side
validation failure exactly like a null name (try the next suffix without
aborting), returns immediately on the first suffix whose lookup yields a
present — possibly empty — name, and returns absent when every suffix is
exhausted without a present name: its trace is the symbols up to and
including the first hit (or all of them), and its result is the first
present name. -/
theorem C6_amended (lookup : String → LookupOutcome) (ticker : String) :
    get_company_name_from_ticker lookup ticker =
      ((marketSymbols ticker).takeWhile (fun sym => !isHit (lookup sym)) ++
        ((marketSymbols ticker).dropWhile
          (fun sym => !isHit (lookup sym))).take 1,
       firstFoundName lookup (marketSymbols ticker)) :=
  tryMarkets_spec lookup (marketSymbols ticker)

lemma tryMarkets_trace_take (lookup : String → LookupOutcome)
    (syms : List String) :
    (tryMarkets lookup syms).1 =
      syms.take (tryMarkets lookup syms).1.length := by
  induction syms with
  | nil => rfl
  | cons sym rest ih =>
    cases hl : lookup sym with
    | err =>
      simp only [tryMarkets, hl, List.length_cons, List.take_succ_cons]
      exact congrArg (List.cons sym) ih
    | name n =>
      cases n with
      | none =>
        simp only [tryMarkets, hl, List.length_cons, List.take_succ_cons]
        exact congrArg (List.cons sym) ih
      | some nm =>
        simp [tryMarkets, hl]

/-- C10: the market-suffix table is exactly [".ST", "", ".MI", ".PA"] in
that order — Stockholm before the bare symbol — and the trace of
attempted symbols is an initial segment of the per-suffix symbol list, so
the i-th remote lookup uses exactly the upper-cased ticker concatenated
with the i-th suffix. -/
theorem C10_attempts (lookup : String → LookupOutcome) (ticker : String) :
    marketSuffixes = [".ST", "", ".MI", ".PA"] ∧
      (get_company_name_from_ticker lookup ticker).1 =
        (marketSuffixes.map (fun suffix => pyUpper ticker ++ suffix)).take
          (get_company_name_from_ticker lookup ticker).1.length :=
  ⟨rfl, tryMarkets_trace_take lookup (marketSymbols ticker)⟩
